import Mathlib

/-!
Verification of the status-subcommand dispatcher
(`prover/prover_cli/src/commands/status/mod.rs`).

The dispatcher is

  pub enum StatusCommand { Batch(batch::Args), L1 }

  impl StatusCommand {
      pub(crate) async fn run(self) -> Result<(), CLIErrors> {
          match self {
              StatusCommand::Batch(args) => Ok(batch::run(args).await?),
              StatusCommand::L1 => l1::run().await,
          }
      }
  }

The collaborators `batch::run`, `l1::run`, the argument type `batch::Args`
and the error types `E_batch` / `CLIErrors` (with its `From` conversion used
by the `?` operator) live outside this fragment, so they are abstracted:
`B` is the batch argument type, `E` the batch collaborator's native error
type, `C` the CLI error type, and a `Collabs` record supplies the two entry
points and the conversion.  The single `await` per arm is modelled as a
direct call; to make invocations observable, each collaborator call appends
a `Call` record to an explicit log that `run` threads through, mirroring the
control flow of the Rust method exactly.
-/

namespace ProverCli

/-- Observable record of one collaborator invocation performed by the
dispatcher: `Call.batch args` is a call of `batch::run` with argument
`args`; `Call.l1` is a call of `l1::run` (which takes no arguments). -/
inductive Call (B : Type) where
  | batch (args : B)
  | l1
  deriving DecidableEq, Repr

/-- Modelled from the spec: the collaborator interfaces consumed by the
dispatcher (spec section 6), whose code is not part of this fragment.
`batchRun` is `batch::run(args: BatchArgs) -> Result<(), E_batch>`,
`l1Run` is `l1::run() -> Result<(), CLIErrors>`, and `fromBatch` is the
`E_batch`-to-`CLIErrors` conversion applied by the `?` operator in the
`Batch` arm ("`E_batch` must be convertible to `CLIErrors`").  The
asynchronous entry points are modelled as plain functions, since the
dispatcher awaits each call to completion at its single suspension point. -/
structure Collabs (B E C : Type) where
  batchRun : B → Except E Unit
  l1Run : Unit → Except C Unit
  fromBatch : E → C

/-- The `StatusCommand` enum from the source: a tagged union with the two
variants `Batch(batch::Args)` and `L1`. -/
inductive StatusCommand (B : Type) where
  | Batch (args : B)
  | L1
  deriving DecidableEq, Repr

/-- Invocation of the batch collaborator: returns `batch::run args` and
records the call (with its argument) in the log. -/
def callBatch {B E C : Type} (c : Collabs B E C) (args : B)
    (log : List (Call B)) : Except E Unit × List (Call B) :=
  (c.batchRun args, log ++ [Call.batch args])

/-- Invocation of the L1 collaborator: returns `l1::run ()` and records
the call in the log. -/
def callL1 {B E C : Type} (c : Collabs B E C)
    (log : List (Call B)) : Except C Unit × List (Call B) :=
  (c.l1Run (), log ++ [Call.l1])

/-- Shallow embedding of `StatusCommand::run`.  The `Batch` arm is
`Ok(batch::run(args).await?)`: it awaits the batch collaborator, rewraps a
success value with `Ok`, and on failure applies the `From` conversion to
`CLIErrors` (the `?` operator).  The `L1` arm is `l1::run().await`,
returned unchanged.  The invocation log is threaded explicitly. -/
def StatusCommand.run {B E C : Type} (c : Collabs B E C) :
    StatusCommand B → List (Call B) → Except C Unit × List (Call B)
  | StatusCommand.Batch args, log =>
      match callBatch c args log with
      | (Except.ok u, log₁) => (Except.ok u, log₁)
      | (Except.error e, log₁) => (Except.error (c.fromBatch e), log₁)
  | StatusCommand.L1, log => callL1 c log

/-- Concrete collaborator instance used to witness the hypothesised
theorems: the batch collaborator always fails with native error `5`,
the L1 collaborator succeeds, and the error conversion is the identity. -/
def exCollabs : Collabs Nat Nat Nat where
  batchRun := fun _ => Except.error 5
  l1Run := fun _ => Except.ok ()
  fromBatch := id

/-- Unfolding lemma shared by the claim theorems: on `Batch args` the
dispatcher produces exactly the batch collaborator's result with its error
mapped through the conversion, and appends exactly the one batch call. -/
theorem run_batch_eq {B E C : Type} (c : Collabs B E C) (args : B)
    (log : List (Call B)) :
    StatusCommand.run c (StatusCommand.Batch args) log =
      (Except.mapError c.fromBatch (c.batchRun args),
        log ++ [Call.batch args]) := by
  cases h : c.batchRun args <;>
    simp [StatusCommand.run, callBatch, Except.mapError, h]

/-- Unfolding lemma shared by the claim theorems: on `L1` the dispatcher
produces exactly the L1 collaborator's result and appends exactly the one
L1 call. -/
theorem run_l1_eq {B E C : Type} (c : Collabs B E C) (log : List (Call B)) :
    StatusCommand.run c StatusCommand.L1 log =
      (c.l1Run (), log ++ [Call.l1]) := rfl

/-- C1: for every `args`, every collaborator behaviour and every prior
log, `run` on `StatusCommand.Batch args` appends exactly one call record,
namely a `batch::run` invocation carrying the identical `args` value, and
no record of any other collaborator; the result is determined by that one
invocation (its error mapped through the conversion). -/
theorem run_batch_invokes_batch_once {B E C : Type} (c : Collabs B E C)
    (args : B) (log : List (Call B)) :
    (StatusCommand.run c (StatusCommand.Batch args) log).2 =
        log ++ [Call.batch args] ∧
      (StatusCommand.run c (StatusCommand.Batch args) log).1 =
        Except.mapError c.fromBatch (c.batchRun args) := by
  rw [run_batch_eq]
  exact ⟨rfl, rfl⟩

/-- C2: for every collaborator behaviour and every prior log, `run` on
`StatusCommand.L1` appends exactly one call record, namely the
argument-less `l1::run` invocation, and returns that collaborator's result
unchanged: `Ok(())` gives `Ok(())` and `Err e` gives the same `e`. -/
theorem run_l1_invokes_l1_once {B E C : Type} (c : Collabs B E C)
    (log : List (Call B)) :
    (StatusCommand.run c StatusCommand.L1 log).2 = log ++ [Call.l1] ∧
      (StatusCommand.run c StatusCommand.L1 log).1 = c.l1Run () ∧
      (c.l1Run () = Except.ok () →
        (StatusCommand.run c StatusCommand.L1 log).1 = Except.ok ()) ∧
      ∀ e : C, c.l1Run () = Except.error e →
        (StatusCommand.run c StatusCommand.L1 log).1 = Except.error e := by
  refine ⟨rfl, rfl, ?_, ?_⟩
  · intro h; rw [run_l1_eq, h]
  · intro e h; rw [run_l1_eq, h]

/-- Witness for C2 at a concrete instance: with the concrete collaborators
(whose `l1::run` returns `Ok(())`), `run` on `L1` logs the single L1 call
and returns `Ok(())`. -/
theorem run_l1_invokes_l1_once_witness :
    (StatusCommand.run exCollabs StatusCommand.L1 []).2 = [Call.l1] ∧
      (StatusCommand.run exCollabs StatusCommand.L1 []).1 =
        exCollabs.l1Run () ∧
      (exCollabs.l1Run () = Except.ok () →
        (StatusCommand.run exCollabs StatusCommand.L1 []).1 =
          Except.ok ()) ∧
      ∀ e : Nat, exCollabs.l1Run () = Except.error e →
        (StatusCommand.run exCollabs StatusCommand.L1 []).1 =
          Except.error e :=
  run_l1_invokes_l1_once exCollabs []

/-- C3: if the batch collaborator returns a native error `e`, the
dispatcher returns `Err (fromBatch e)`, and whenever the conversion is
lossless (injective, as the spec requires of the `From` impl, which is
outside this fragment), the returned error identifies the same underlying
failure: `e` is the unique native error mapping to it. -/
theorem run_batch_error_lossless {B E C : Type} (c : Collabs B E C)
    (hinj : Function.Injective c.fromBatch) (args : B) (e : E)
    (herr : c.batchRun args = Except.error e) (log : List (Call B)) :
    (StatusCommand.run c (StatusCommand.Batch args) log).1 =
        Except.error (c.fromBatch e) ∧
      ∀ e' : E, c.fromBatch e' = c.fromBatch e → e' = e := by
  constructor
  · rw [run_batch_eq, herr]; rfl
  · intro e' h; exact hinj h

/-- Witness for C3 at a concrete instance: the concrete batch collaborator
fails with native error `5`, the identity conversion is injective, and the
dispatcher surfaces exactly that error. -/
theorem run_batch_error_lossless_witness :
    (StatusCommand.run exCollabs (StatusCommand.Batch 7) []).1 =
        Except.error (exCollabs.fromBatch 5) ∧
      ∀ e' : Nat, exCollabs.fromBatch e' = exCollabs.fromBatch 5 → e' = 5 :=
  run_batch_error_lossless exCollabs (fun _ _ h => h) 7 5 rfl []

/-- C4: the dispatcher is a pure pass-through on outcomes.  For every
command it returns `Ok(())` exactly when the one invoked collaborator
returns `Ok(())`, and every returned error originates from that
collaborator: on `Batch` it is the conversion of some native batch error,
on `L1` it is the L1 collaborator's own error — no retry, fallback, or
dispatcher-introduced error kind exists. -/
theorem run_pass_through {B E C : Type} (c : Collabs B E C)
    (log : List (Call B)) :
    (∀ args : B,
        ((StatusCommand.run c (StatusCommand.Batch args) log).1 =
            Except.ok () ↔ c.batchRun args = Except.ok ())) ∧
      ((StatusCommand.run c StatusCommand.L1 log).1 = Except.ok () ↔
        c.l1Run () = Except.ok ()) ∧
      (∀ (args : B) (err : C),
        (StatusCommand.run c (StatusCommand.Batch args) log).1 =
            Except.error err →
          ∃ e : E, c.batchRun args = Except.error e ∧
            err = c.fromBatch e) ∧
      ∀ err : C,
        (StatusCommand.run c StatusCommand.L1 log).1 = Except.error err →
          c.l1Run () = Except.error err := by
  refine ⟨?_, Iff.rfl, ?_, fun err hc => hc⟩
  · intro args
    rw [run_batch_eq]
    cases h : c.batchRun args with
    | ok u => cases u; simp [Except.mapError]
    | error e => simp [Except.mapError]
  · intro args err hc
    rw [run_batch_eq] at hc
    cases h : c.batchRun args with
    | ok u => rw [h] at hc; simp [Except.mapError] at hc
    | error e =>
        rw [h] at hc
        simp only [Except.mapError] at hc
        exact ⟨e, rfl, (Except.error.inj hc).symm⟩

/-- C5: `StatusCommand` is a closed tagged union with exactly the two
variants `Batch` (carrying one payload of the batch-argument type) and
`L1` (no payload): every value is one of the two, the two are distinct,
and the `Batch` payload is carried faithfully (injectively). -/
theorem statusCommand_closed_two_variants {B : Type} (cmd : StatusCommand B) :
    ((∃ args : B, cmd = StatusCommand.Batch args) ∨ cmd = StatusCommand.L1) ∧
      (∀ args : B, StatusCommand.Batch args ≠ StatusCommand.L1) ∧
      ∀ a₁ a₂ : B, StatusCommand.Batch a₁ = StatusCommand.Batch a₂ →
        a₁ = a₂ := by
  refine ⟨?_, ?_, ?_⟩
  · cases cmd with
    | Batch args => exact Or.inl ⟨args, rfl⟩
    | L1 => exact Or.inr rfl
  · intro args h
    cases h
  · intro a₁ a₂ h
    cases h
    rfl

/-- C6: the match in `run` is exhaustive with no default arm: every
`StatusCommand` value falls into exactly one of the two arms, and on each
arm `run` is defined and yields a `Result` — the arm's collaborator result
(error-converted on `Batch`) paired with the single logged call; there is
no unreachable or unhandled branch. -/
theorem run_exhaustive_match {B E C : Type} (c : Collabs B E C)
    (cmd : StatusCommand B) (log : List (Call B)) :
    (∃ args : B, cmd = StatusCommand.Batch args ∧
        StatusCommand.run c cmd log =
          (Except.mapError c.fromBatch (c.batchRun args),
            log ++ [Call.batch args])) ∨
      (cmd = StatusCommand.L1 ∧
        StatusCommand.run c cmd log = (c.l1Run (), log ++ [Call.l1])) := by
  cases cmd with
  | Batch args => exact Or.inl ⟨args, rfl, run_batch_eq c args log⟩
  | L1 => exact Or.inr ⟨rfl, run_l1_eq c log⟩

/-- C7: a single call of `run` invokes exactly one collaborator: the log
grows by precisely one call record, so the dispatcher never invokes both
collaborators, never invokes one twice, and composes no concurrent
queries within one invocation. -/
theorem run_single_collaborator_call {B E C : Type} (c : Collabs B E C)
    (cmd : StatusCommand B) (log : List (Call B)) :
    ∃ call : Call B, (StatusCommand.run c cmd log).2 = log ++ [call] := by
  cases cmd with
  | Batch args => exact ⟨Call.batch args, by rw [run_batch_eq]⟩
  | L1 => exact ⟨Call.l1, rfl⟩

/-- C8: the dispatcher has no effect of its own: `run` is extensionally
the single chosen collaborator invocation — `callBatch` with only the pure
error-type mapping on its value, or `callL1` unchanged — so both the
returned result and the entire log effect are those of that one
collaborator call and nothing else. -/
theorem run_effect_is_collaborator_call {B E C : Type} (c : Collabs B E C)
    (cmd : StatusCommand B) (log : List (Call B)) :
    StatusCommand.run c cmd log =
      (match cmd with
        | StatusCommand.Batch args =>
            ((callBatch c args log).1.mapError c.fromBatch,
              (callBatch c args log).2)
        | StatusCommand.L1 => callL1 c log) := by
  cases cmd with
  | Batch args => exact run_batch_eq c args log
  | L1 => rfl

/-- C9: the dispatcher carries no state between invocations: the result of
`run` is independent of any previously accumulated log, hence two runs of
equal commands against the same collaborators return equal results; in
particular two sequential `L1` invocations each yield exactly their own
collaborator's result. -/
theorem run_stateless_deterministic {B E C : Type} (c : Collabs B E C)
    (cmd : StatusCommand B) (log₁ log₂ : List (Call B)) :
    (StatusCommand.run c cmd log₁).1 = (StatusCommand.run c cmd log₂).1 ∧
      (StatusCommand.run c StatusCommand.L1 log₁).1 = c.l1Run () ∧
      (StatusCommand.run c StatusCommand.L1
          (StatusCommand.run c StatusCommand.L1 log₁).2).1 = c.l1Run () := by
  refine ⟨?_, rfl, rfl⟩
  cases cmd with
  | Batch args => rw [run_batch_eq, run_batch_eq]
  | L1 => rfl

/-- C10: the `Batch` arm is extensionally `batch::run` with its error
mapped through the conversion into `CLIErrors`: the `Ok(...?)` rewrapping
is the identity on the success value `()`, so the arm's result is exactly
`Except.mapError fromBatch (batchRun args)` and adds nothing beyond the
error-type conversion. -/
theorem run_batch_refines_batchRun {B E C : Type} (c : Collabs B E C)
    (args : B) (log : List (Call B)) :
    (StatusCommand.run c (StatusCommand.Batch args) log).1 =
        Except.mapError c.fromBatch (c.batchRun args) ∧
      (c.batchRun args = Except.ok () →
        (StatusCommand.run c (StatusCommand.Batch args) log).1 =
          Except.ok ()) := by
  refine ⟨by rw [run_batch_eq], fun h => ?_⟩
  rw [run_batch_eq, h]
  rfl

/-- Witness for C10 at a concrete instance: with the concrete batch
collaborator (which fails with native error `5` on every argument), the
`Batch` arm's result is exactly the converted collaborator result. -/
theorem run_batch_refines_batchRun_witness :
    (StatusCommand.run exCollabs (StatusCommand.Batch 3) []).1 =
        Except.mapError exCollabs.fromBatch (exCollabs.batchRun 3) ∧
      (exCollabs.batchRun 3 = Except.ok () →
        (StatusCommand.run exCollabs (StatusCommand.Batch 3) []).1 =
          Except.ok ()) :=
  run_batch_refines_batchRun exCollabs 3 []

end ProverCli
